import Mathlib

/-!
# Verification of `typhoon_7b_extractor.py`

A shallow embedding of the sequential multi-page PDF extraction script
(`src/typhoon_7b_extractor.py`) and proofs about its retry / backoff /
end-of-document behaviour, its directory walker, and its credential
resolution.

The backend (`typhoon_ocr.ocr_document`) is external: one run of the
extraction loop over a single document is modelled as a function of the
finite sequence of backend call results, consumed one result per attempt,
exactly as the Python inner loop performs one `ocr_document` call per
iteration.  Wall-clock sleeping, logging and the filesystem are modelled
as an event trace; the written file content is the payload of the
`writeFile` event.
-/

namespace TyphoonExtractor

/-- Python's `str.lower()` (ASCII case folding suffices for the patterns
the script matches on). From `msg = str(e).lower()`, line 95. -/
def py_lower (s : String) : String := ⟨s.data.map Char.toLower⟩

/-- Python's `str.strip()`: remove whitespace from both ends.
From `_parse_typhoon_response(resp).strip()`, line 86. -/
def py_strip (s : String) : String :=
  ⟨((s.data.dropWhile Char.isWhitespace).reverse.dropWhile Char.isWhitespace).reverse⟩

/-- `pat` starts the character list `hay`. Helper for Python's `in`. -/
def beginsWith : List Char → List Char → Bool
  | [], _ => true
  | _ :: _, [] => false
  | p :: ps, c :: cs => p == c && beginsWith ps cs

/-- `pat` occurs contiguously in `hay` (Python's `pat in hay`; an empty
pattern always matches, as in Python). -/
def occursIn (pat : List Char) : List Char → Bool
  | [] => pat.isEmpty
  | c :: cs => beginsWith pat (c :: cs) || occursIn pat cs

/-- Python's substring test `pat in s`. -/
def strContains (s pat : String) : Bool := occursIn pat.data s.data

/-- Retry cap, line 34: `MAX_RETRIES = 5`. -/
def MAX_RETRIES : Nat := 5

/-- The result of one `ocr_document` call, as seen by the `try` block:
either a returned response value or a raised exception.

The response value of a successful call is a Python object; the script
feeds it to `_parse_typhoon_response`, which branches on whether it is a
`str` and on the outcome of `json.loads`.  The JSON library is external,
so the decode outcome is part of the constructor:
* `strNotJson s`   — a `str` on which `json.loads` raises `JSONDecodeError`;
* `strJsonDict s nt` — a `str` that decodes to a dict whose optional
  `"natural_text"` entry is `nt` (the dict's `.get` default is the raw string);
* `nonStr s`       — not a `str`; `str(resp)` prints as `s`. -/
inductive Resp where
  | strNotJson (s : String)
  | strJsonDict (s : String) (nt : Option String)
  | nonStr (s : String)
deriving DecidableEq, Repr

/-- One backend call result: `ok` is a normal return, `err e` an
exception whose `str(e)` is `e`. -/
inductive BackendResult where
  | ok (resp : Resp)
  | err (e : String)
deriving DecidableEq, Repr

/-- `_parse_typhoon_response`, lines 46–53. -/
def parse_typhoon_response : Resp → String
  | .strNotJson s => s
  | .strJsonDict s nt => nt.getD s
  | .nonStr s => s

/-- End-of-document classification of a lowercased error message,
lines 98–101 of `extract_pdf_multipage`. -/
def is_end_of_doc_msg (msg : String) : Bool :=
  (strContains msg "page" &&
    (strContains msg "not found" || strContains msg "invalid" ||
     strContains msg "out of range")) ||
  (strContains msg "index" && strContains msg "range") ||
  strContains msg "wrong page range" ||
  (strContains msg "first page" && strContains msg "after the last page")

/-- Rate-limit classification, line 113:
`"429" in str(e) or "rate limit" in msg or "too many requests" in msg`
(`msg` is the lowercased message). -/
def is_rate_limit_err (e : String) : Bool :=
  strContains e "429" || strContains (py_lower e) "rate limit" ||
    strContains (py_lower e) "too many requests"

/-- The three-way classification the `except` block applies to an
exception, in source order: end-of-document patterns first (line 98),
then rate-limit (line 113), else the catch-all skip (line 123). -/
inductive ErrClass where
  | endOfDocument
  | rateLimited
  | other
deriving DecidableEq, Repr

/-- Classification of an exception message with the source's precedence. -/
def classify_error (e : String) : ErrClass :=
  if is_end_of_doc_msg (py_lower e) then .endOfDocument
  else if is_rate_limit_err e then .rateLimited
  else .other

/-- Externally visible actions of `extract_pdf_multipage`:
a backend call for a page, a rate-limit backoff sleep (line 120, with the
retry count after the increment of line 114), and a file write (line 105
or 135). -/
inductive Event where
  | call (page : Nat)
  | backoff (page : Nat) (retries : Nat)
  | writeFile (content : String)
deriving DecidableEq, Repr

/-- How one run of `extract_pdf_multipage` ends:
`some_path` — returned `out_path` after writing the file (line 107);
`none_result` — returned `None` without writing (line 110);
`pending` — the supplied result sequence is exhausted while the
`while True` loop is still awaiting its next backend result (the loop
state is recorded).  The fallback code after the loop (lines 133–140)
is reachable from no constructor: the Python loop can only be left by
the two `return` statements inside it. -/
inductive ExtractOutcome where
  | some_path
  | none_result
  | pending (page_num : Nat) (pages : List String) (retries : Nat)
deriving DecidableEq, Repr

/-- The separator `"\n\n".join(pages)` of lines 105 and 135. -/
def join_pages (pages : List String) : String := String.intercalate "\n\n" pages

/-- The page loop of `extract_pdf_multipage`, lines 69–131, as a function
of the remaining backend results.  State: `page_num` (line 58, starts
at 1), accumulated `pages` (line 59), and the current page's `retries`
counter (line 70, reset to 0 whenever the outer loop advances).
Each list element is consumed by exactly one attempt of the inner
`while retries < MAX_RETRIES` loop:
* a normal return appends the stripped parsed text when non-empty
  (lines 86–92) and moves to the next page with `retries = 0`;
* an end-of-document exception writes the joined pages and returns the
  path, or returns `None` when nothing accumulated (lines 98–110);
* a rate-limit exception increments `retries` and sleeps (lines 113–121);
  the inner loop then re-attempts the same page if `retries < MAX_RETRIES`,
  otherwise the page is skipped (lines 129–131);
* any other exception skips the page immediately (lines 123–126). -/
def extractLoop : List BackendResult → Nat → List String → Nat →
    List Event × ExtractOutcome
  | [], page_num, pages, retries => ([], .pending page_num pages retries)
  | .ok r :: rest, page_num, pages, _retries =>
      let text := py_strip (parse_typhoon_response r)
      let pages' := if text = "" then pages else pages ++ [text]
      let next := extractLoop rest (page_num + 1) pages' 0
      (.call page_num :: next.1, next.2)
  | .err e :: rest, page_num, pages, retries =>
      if is_end_of_doc_msg (py_lower e) then
        if pages = [] then ([.call page_num], .none_result)
        else ([.call page_num, .writeFile (join_pages pages)], .some_path)
      else if is_rate_limit_err e then
        if retries + 1 < MAX_RETRIES then
          let next := extractLoop rest page_num pages (retries + 1)
          (.call page_num :: .backoff page_num (retries + 1) :: next.1, next.2)
        else
          let next := extractLoop rest (page_num + 1) pages 0
          (.call page_num :: .backoff page_num (retries + 1) :: next.1, next.2)
      else
        let next := extractLoop rest (page_num + 1) pages 0
        (.call page_num :: next.1, next.2)

/-- `extract_pdf_multipage` on one document, lines 56–131, driven by the
finite sequence of backend call results. -/
def extract_pdf_multipage (stream : List BackendResult) :
    List Event × ExtractOutcome :=
  extractLoop stream 1 [] 0

/-- The backoff interval of lines 116–118:
`2 ** retries + (hash(worker_id) % 10) * 0.1 + random.uniform(0, 1)`,
with the worker-derived jitter and the random draw as parameters
(rationals stand in for floats). -/
def backoff_time (retries : Nat) (worker_jitter rand : ℚ) : ℚ :=
  2 ^ retries + worker_jitter + rand

/-- The file contents written during a run. -/
def writesOf (evs : List Event) : List String :=
  evs.filterMap fun ev => match ev with
    | .writeFile c => some c
    | _ => none

/-- The text a backend result contributes to the accumulated pages:
the stripped parsed response when the call returned and that text is
non-empty; nothing otherwise. -/
def page_text : BackendResult → Option String
  | .ok r => let t := py_strip (parse_typhoon_response r)
             if t = "" then none else some t
  | .err _ => none

/-- A result that the `except` block classifies as end-of-document. -/
def isTerminal : BackendResult → Bool
  | .ok _ => false
  | .err e => is_end_of_doc_msg (py_lower e)

/-- The texts the specification says the output file must contain: the
non-empty stripped texts of the successfully read pages, in order,
truncated at the first end-of-document signal. -/
def expected_texts (stream : List BackendResult) : List String :=
  (stream.takeWhile fun r => !isTerminal r).filterMap page_text

/-- Whether some backend result in the sequence carries an
end-of-document-classified error. -/
def hasTerminal (stream : List BackendResult) : Bool :=
  stream.any isTerminal

/-! ## Rewriting lemmas for the spec-side accumulators -/

lemma writesOf_call (p : Nat) (evs : List Event) :
    writesOf (.call p :: evs) = writesOf evs := rfl

lemma writesOf_backoff (p r : Nat) (evs : List Event) :
    writesOf (.backoff p r :: evs) = writesOf evs := rfl

lemma writesOf_writeFile (c : String) (evs : List Event) :
    writesOf (.writeFile c :: evs) = c :: writesOf evs := rfl

lemma expected_texts_nil : expected_texts [] = [] := rfl

lemma expected_texts_cons_ok (r : Resp) (rest : List BackendResult) :
    expected_texts (.ok r :: rest) =
      (if py_strip (parse_typhoon_response r) = "" then expected_texts rest
       else py_strip (parse_typhoon_response r) :: expected_texts rest) := by
  by_cases h : py_strip (parse_typhoon_response r) = "" <;>
    simp [expected_texts, List.takeWhile_cons, isTerminal, List.filterMap_cons,
      page_text, h]

lemma expected_texts_cons_err_terminal (e : String) (rest : List BackendResult)
    (h : is_end_of_doc_msg (py_lower e) = true) :
    expected_texts (.err e :: rest) = [] := by
  simp [expected_texts, List.takeWhile, isTerminal, h]

lemma expected_texts_cons_err_nonterminal (e : String) (rest : List BackendResult)
    (h : is_end_of_doc_msg (py_lower e) = false) :
    expected_texts (.err e :: rest) = expected_texts rest := by
  simp [expected_texts, List.takeWhile, isTerminal, h, page_text]

lemma hasTerminal_nil : hasTerminal [] = false := rfl

lemma hasTerminal_cons_ok (r : Resp) (rest : List BackendResult) :
    hasTerminal (.ok r :: rest) = hasTerminal rest := by
  simp [hasTerminal, isTerminal]

lemma hasTerminal_cons_err (e : String) (rest : List BackendResult) :
    hasTerminal (.err e :: rest) =
      (is_end_of_doc_msg (py_lower e) || hasTerminal rest) := by
  simp [hasTerminal, isTerminal]

/-! ## Step equations for the loop, one per branch of the `except` block -/

lemma extractLoop_nil (page : Nat) (pages : List String) (retries : Nat) :
    extractLoop [] page pages retries = ([], .pending page pages retries) := rfl

lemma extractLoop_cons_ok_empty (r : Resp) (rest : List BackendResult)
    (page : Nat) (pages : List String) (retries : Nat)
    (h : py_strip (parse_typhoon_response r) = "") :
    extractLoop (.ok r :: rest) page pages retries =
      (.call page :: (extractLoop rest (page + 1) pages 0).1,
       (extractLoop rest (page + 1) pages 0).2) := by
  simp [extractLoop, h]

lemma extractLoop_cons_ok_text (r : Resp) (rest : List BackendResult)
    (page : Nat) (pages : List String) (retries : Nat)
    (h : py_strip (parse_typhoon_response r) ≠ "") :
    extractLoop (.ok r :: rest) page pages retries =
      (.call page ::
        (extractLoop rest (page + 1) (pages ++ [py_strip (parse_typhoon_response r)]) 0).1,
       (extractLoop rest (page + 1) (pages ++ [py_strip (parse_typhoon_response r)]) 0).2) := by
  simp [extractLoop, h]

lemma extractLoop_cons_err_eof_none (e : String) (rest : List BackendResult)
    (page : Nat) (retries : Nat)
    (he : is_end_of_doc_msg (py_lower e) = true) :
    extractLoop (.err e :: rest) page [] retries = ([.call page], .none_result) := by
  simp [extractLoop, he]

lemma extractLoop_cons_err_eof_write (e : String) (rest : List BackendResult)
    (page : Nat) (pages : List String) (retries : Nat)
    (he : is_end_of_doc_msg (py_lower e) = true) (hp : pages ≠ []) :
    extractLoop (.err e :: rest) page pages retries =
      ([.call page, .writeFile (join_pages pages)], .some_path) := by
  simp [extractLoop, he, hp]

lemma extractLoop_cons_err_rl_retry (e : String) (rest : List BackendResult)
    (page : Nat) (pages : List String) (retries : Nat)
    (he : is_end_of_doc_msg (py_lower e) = false)
    (hr : is_rate_limit_err e = true) (hcap : retries + 1 < MAX_RETRIES) :
    extractLoop (.err e :: rest) page pages retries =
      (.call page :: .backoff page (retries + 1) ::
        (extractLoop rest page pages (retries + 1)).1,
       (extractLoop rest page pages (retries + 1)).2) := by
  simp [extractLoop, he, hr, hcap]

lemma extractLoop_cons_err_rl_skip (e : String) (rest : List BackendResult)
    (page : Nat) (pages : List String) (retries : Nat)
    (he : is_end_of_doc_msg (py_lower e) = false)
    (hr : is_rate_limit_err e = true) (hcap : ¬ retries + 1 < MAX_RETRIES) :
    extractLoop (.err e :: rest) page pages retries =
      (.call page :: .backoff page (retries + 1) ::
        (extractLoop rest (page + 1) pages 0).1,
       (extractLoop rest (page + 1) pages 0).2) := by
  simp [extractLoop, he, hr, hcap]

lemma extractLoop_cons_err_other (e : String) (rest : List BackendResult)
    (page : Nat) (pages : List String) (retries : Nat)
    (he : is_end_of_doc_msg (py_lower e) = false)
    (hr : is_rate_limit_err e = false) :
    extractLoop (.err e :: rest) page pages retries =
      (.call page :: (extractLoop rest (page + 1) pages 0).1,
       (extractLoop rest (page + 1) pages 0).2) := by
  simp [extractLoop, he, hr]

/-! ## The loop invariant

`extractLoop stream page pages retries` finishes in one of three ways,
characterised by the two lemmas below:
* no end-of-document signal in `stream`: every result is consumed, no
  write happens, and the loop is still running with the accumulated
  texts `pages ++ expected_texts stream`;
* an end-of-document signal occurs: the loop returns at the first such
  signal, writing `join_pages (pages ++ expected_texts stream)` exactly
  once when that list is non-empty, and writing nothing (returning
  `None`) when it is empty. -/

lemma extractLoop_no_terminal (stream : List BackendResult) :
    ∀ page pages retries, hasTerminal stream = false →
      writesOf (extractLoop stream page pages retries).1 = [] ∧
      ∃ p r, (extractLoop stream page pages retries).2 =
        .pending p (pages ++ expected_texts stream) r := by
  induction stream with
  | nil =>
      intro page pages retries _
      exact ⟨rfl, page, retries, by simp [extractLoop_nil, expected_texts_nil]⟩
  | cons hd rest ih =>
      intro page pages retries h
      cases hd with
      | ok r =>
          rw [hasTerminal_cons_ok] at h
          rw [expected_texts_cons_ok]
          by_cases ht : py_strip (parse_typhoon_response r) = ""
          · rw [extractLoop_cons_ok_empty r rest page pages retries ht, writesOf_call]
            simpa [ht] using ih (page + 1) pages 0 h
          · rw [extractLoop_cons_ok_text r rest page pages retries ht, writesOf_call]
            simpa [ht] using
              ih (page + 1) (pages ++ [py_strip (parse_typhoon_response r)]) 0 h
      | err e =>
          rw [hasTerminal_cons_err, Bool.or_eq_false_iff] at h
          obtain ⟨he, hrest⟩ := h
          rw [expected_texts_cons_err_nonterminal e rest he]
          by_cases hr : is_rate_limit_err e = true
          · by_cases hcap : retries + 1 < MAX_RETRIES
            · rw [extractLoop_cons_err_rl_retry e rest page pages retries he hr hcap,
                writesOf_call, writesOf_backoff]
              exact ih page pages (retries + 1) hrest
            · rw [extractLoop_cons_err_rl_skip e rest page pages retries he hr hcap,
                writesOf_call, writesOf_backoff]
              exact ih (page + 1) pages 0 hrest
          · rw [Bool.not_eq_true] at hr
            rw [extractLoop_cons_err_other e rest page pages retries he hr, writesOf_call]
            exact ih (page + 1) pages 0 hrest

lemma extractLoop_terminal (stream : List BackendResult) :
    ∀ page pages retries, hasTerminal stream = true →
      (pages ++ expected_texts stream = [] →
        (extractLoop stream page pages retries).2 = .none_result ∧
        writesOf (extractLoop stream page pages retries).1 = []) ∧
      (pages ++ expected_texts stream ≠ [] →
        (extractLoop stream page pages retries).2 = .some_path ∧
        writesOf (extractLoop stream page pages retries).1 =
          [join_pages (pages ++ expected_texts stream)]) := by
  induction stream with
  | nil => intro page pages retries h; simp [hasTerminal_nil] at h
  | cons hd rest ih =>
      intro page pages retries h
      cases hd with
      | ok r =>
          rw [hasTerminal_cons_ok] at h
          rw [expected_texts_cons_ok]
          by_cases ht : py_strip (parse_typhoon_response r) = ""
          · rw [extractLoop_cons_ok_empty r rest page pages retries ht, writesOf_call]
            simpa [ht] using ih (page + 1) pages 0 h
          · rw [extractLoop_cons_ok_text r rest page pages retries ht, writesOf_call]
            simpa [ht] using
              ih (page + 1) (pages ++ [py_strip (parse_typhoon_response r)]) 0 h
      | err e =>
          by_cases he : is_end_of_doc_msg (py_lower e) = true
          · rw [expected_texts_cons_err_terminal e rest he, List.append_nil]
            constructor
            · intro hp
              rw [hp, extractLoop_cons_err_eof_none e rest page retries he]
              exact ⟨rfl, rfl⟩
            · intro hp
              rw [extractLoop_cons_err_eof_write e rest page pages retries he hp,
                writesOf_call, writesOf_writeFile]
              exact ⟨rfl, rfl⟩
          · rw [Bool.not_eq_true] at he
            rw [hasTerminal_cons_err, he, Bool.false_or] at h
            rw [expected_texts_cons_err_nonterminal e rest he]
            by_cases hr : is_rate_limit_err e = true
            · by_cases hcap : retries + 1 < MAX_RETRIES
              · rw [extractLoop_cons_err_rl_retry e rest page pages retries he hr hcap,
                  writesOf_call, writesOf_backoff]
                exact ih page pages (retries + 1) h
              · rw [extractLoop_cons_err_rl_skip e rest page pages retries he hr hcap,
                  writesOf_call, writesOf_backoff]
                exact ih (page + 1) pages 0 h
            · rw [Bool.not_eq_true] at hr
              rw [extractLoop_cons_err_other e rest page pages retries he hr, writesOf_call]
              exact ih (page + 1) pages 0 h

/-- On a sequence with an end-of-document signal the run ends with the
outcome the terminal branch chose; packaged form of `extractLoop_terminal`
at the initial state of `extract_pdf_multipage`. -/
lemma extract_terminal_cases (stream : List BackendResult)
    (h : hasTerminal stream = true) :
    (expected_texts stream = [] →
      (extract_pdf_multipage stream).2 = .none_result ∧
      writesOf (extract_pdf_multipage stream).1 = []) ∧
    (expected_texts stream ≠ [] →
      (extract_pdf_multipage stream).2 = .some_path ∧
      writesOf (extract_pdf_multipage stream).1 =
        [join_pages (expected_texts stream)]) := by
  have := extractLoop_terminal stream 1 [] 0 h
  simpa [extract_pdf_multipage] using this

lemma hasTerminal_append_terminal (pre : List BackendResult)
    (term : BackendResult) (hterm : isTerminal term = true) :
    hasTerminal (pre ++ [term]) = true := by
  simp [hasTerminal, List.any_append, hterm]

/-- C1: For every finite sequence of backend call results for one document
that ends in an end-of-document-classified error, if
`extract_pdf_multipage` produces an output file, the file's content equals
exactly the non-empty (after stripping) texts of the pages that were
successfully read, in ascending page-number order, joined by `"\n\n"`,
with nothing from any response at or after the terminal signal included
(`expected_texts` cuts the sequence at the first terminal signal), and the
file is written exactly once (the write trace is that one singleton). -/
theorem extract_pdf_multipage_output_exact (pre : List BackendResult)
    (term : BackendResult) (hterm : isTerminal term = true)
    (hout : (extract_pdf_multipage (pre ++ [term])).2 = ExtractOutcome.some_path) :
    writesOf (extract_pdf_multipage (pre ++ [term])).1 =
      [join_pages (expected_texts (pre ++ [term]))] := by
  have hT := hasTerminal_append_terminal pre term hterm
  by_cases hne : expected_texts (pre ++ [term]) = []
  · have := ((extract_terminal_cases _ hT).1 hne).1
    rw [this] at hout
    exact absurd hout (by simp)
  · exact ((extract_terminal_cases _ hT).2 hne).2

/-- Witness for C1: a one-page document whose single page reads `"A"`,
followed by the end-of-document signal. -/
theorem extract_pdf_multipage_output_exact_witness :
    isTerminal (.err "requested page not found") = true ∧
    (extract_pdf_multipage
        [.ok (.strNotJson "A"), .err "requested page not found"]).2 =
      ExtractOutcome.some_path ∧
    writesOf (extract_pdf_multipage
        [.ok (.strNotJson "A"), .err "requested page not found"]).1 =
      [join_pages (expected_texts
        [.ok (.strNotJson "A"), .err "requested page not found"])] :=
  ⟨by decide, by decide,
    extract_pdf_multipage_output_exact [.ok (.strNotJson "A")]
      (.err "requested page not found") (by decide) (by decide)⟩

/-- C2: If, when the end-of-document signal arrives, no page has
contributed non-empty text (every page was empty after stripping, skipped
on error, or skipped after exhausting retries — i.e. the accumulated
sequence `expected_texts` is empty), then `extract_pdf_multipage` writes
no file and returns `None`. -/
theorem extract_pdf_multipage_empty_no_file (pre : List BackendResult)
    (term : BackendResult) (hterm : isTerminal term = true)
    (hempty : expected_texts (pre ++ [term]) = []) :
    (extract_pdf_multipage (pre ++ [term])).2 = ExtractOutcome.none_result ∧
    writesOf (extract_pdf_multipage (pre ++ [term])).1 = [] :=
  (extract_terminal_cases _ (hasTerminal_append_terminal pre term hterm)).1 hempty

/-- Witness for C2: one page erroring out, then the end-of-document
signal: no file, `None` returned. -/
theorem extract_pdf_multipage_empty_no_file_witness :
    isTerminal (.err "requested page not found") = true ∧
    expected_texts [.err "connection reset", .err "requested page not found"] = [] ∧
    (extract_pdf_multipage
        [.err "connection reset", .err "requested page not found"]).2 =
      ExtractOutcome.none_result ∧
    writesOf (extract_pdf_multipage
        [.err "connection reset", .err "requested page not found"]).1 = [] := by
  refine ⟨by decide, by decide, ?_⟩
  exact extract_pdf_multipage_empty_no_file [.err "connection reset"]
    (.err "requested page not found") (by decide) (by decide)

/-- C3: On the backend result sequence
`[text "A"; 429; 429; text "B"; text "C"; end-of-document]` (pages 1–4,
page 2 succeeding on its third attempt after two backoffs, within the
retry cap) the extractor writes exactly one file whose content is the
7-character string `"A\n\nB\n\nC"`. -/
theorem extract_pdf_multipage_concrete_abc :
    extract_pdf_multipage
        [.ok (.strNotJson "A"), .err "429 Too Many Requests",
         .err "429 Too Many Requests", .ok (.strNotJson "B"),
         .ok (.strNotJson "C"), .err "requested page not found"] =
      ([.call 1, .call 2, .backoff 2 1, .call 2, .backoff 2 2, .call 2,
        .call 3, .call 4, .writeFile "A\n\nB\n\nC"], .some_path) ∧
    ("A\n\nB\n\nC" : String).length = 7 := by
  constructor <;> decide

/-- C7: Under the precondition that some backend call for the document
raises an end-of-document-classified error, the page loop exits only
through the end-of-document branch: the run ends in `some_path` or
`none_result`, both produced by the `return` statements inside the loop.
The `pending` outcome — the only state from which the fallback
write-after-loop code could ever run — does not occur, matching the
fallback code (lines 133–140) being structurally unreachable: the
`while True` loop is left only by those two `return`s. -/
theorem extract_pdf_multipage_only_terminal_exit (stream : List BackendResult)
    (h : hasTerminal stream = true) :
    (extract_pdf_multipage stream).2 = ExtractOutcome.some_path ∨
    (extract_pdf_multipage stream).2 = ExtractOutcome.none_result := by
  by_cases hne : expected_texts stream = []
  · exact Or.inr ((extract_terminal_cases _ h).1 hne).1
  · exact Or.inl ((extract_terminal_cases _ h).2 hne).1

/-- Witness for C7: a document whose very first probe hits the
end-of-document signal. -/
theorem extract_pdf_multipage_only_terminal_exit_witness :
    hasTerminal [BackendResult.err "wrong page range given"] = true ∧
    ((extract_pdf_multipage [BackendResult.err "wrong page range given"]).2 =
        ExtractOutcome.some_path ∨
      (extract_pdf_multipage [BackendResult.err "wrong page range given"]).2 =
        ExtractOutcome.none_result) :=
  ⟨by decide,
    extract_pdf_multipage_only_terminal_exit
      [BackendResult.err "wrong page range given"] (by decide)⟩

/-! ## Classification lemmas -/

lemma classify_error_rateLimited_iff (e : String) :
    classify_error e = ErrClass.rateLimited ↔
      is_end_of_doc_msg (py_lower e) = false ∧ is_rate_limit_err e = true := by
  unfold classify_error
  by_cases h1 : is_end_of_doc_msg (py_lower e) = true
  · simp [h1]
  · rw [Bool.not_eq_true] at h1
    by_cases h2 : is_rate_limit_err e = true <;> simp [h1, h2]

lemma classify_error_other_iff (e : String) :
    classify_error e = ErrClass.other ↔
      is_end_of_doc_msg (py_lower e) = false ∧ is_rate_limit_err e = false := by
  unfold classify_error
  by_cases h1 : is_end_of_doc_msg (py_lower e) = true
  · simp [h1]
  · rw [Bool.not_eq_true] at h1
    by_cases h2 : is_rate_limit_err e = true
    · simp [h1, h2]
    · rw [Bool.not_eq_true] at h2
      simp [h1, h2]

/-- C4: When every attempt at one page is throttled and the retry cap
(`MAX_RETRIES = 5`) is reached, exactly that page is skipped: five
rate-limited attempts (each one call plus one backoff, the retry counter
rising 1,…,5) consume the page, the accumulated `pages` are passed on
unchanged (the page contributes nothing to the output), the page cursor
advances by one, and extraction continues with the remaining backend
results — the document is not aborted. -/
theorem extract_retry_cap_skips_page (e1 e2 e3 e4 e5 : String)
    (rest : List BackendResult) (page : Nat) (pages : List String)
    (h1 : classify_error e1 = ErrClass.rateLimited)
    (h2 : classify_error e2 = ErrClass.rateLimited)
    (h3 : classify_error e3 = ErrClass.rateLimited)
    (h4 : classify_error e4 = ErrClass.rateLimited)
    (h5 : classify_error e5 = ErrClass.rateLimited) :
    MAX_RETRIES = 5 ∧
    extractLoop (.err e1 :: .err e2 :: .err e3 :: .err e4 :: .err e5 :: rest)
        page pages 0 =
      ([.call page, .backoff page 1, .call page, .backoff page 2,
        .call page, .backoff page 3, .call page, .backoff page 4,
        .call page, .backoff page 5] ++ (extractLoop rest (page + 1) pages 0).1,
       (extractLoop rest (page + 1) pages 0).2) := by
  obtain ⟨he1, hr1⟩ := (classify_error_rateLimited_iff e1).1 h1
  obtain ⟨he2, hr2⟩ := (classify_error_rateLimited_iff e2).1 h2
  obtain ⟨he3, hr3⟩ := (classify_error_rateLimited_iff e3).1 h3
  obtain ⟨he4, hr4⟩ := (classify_error_rateLimited_iff e4).1 h4
  obtain ⟨he5, hr5⟩ := (classify_error_rateLimited_iff e5).1 h5
  refine ⟨rfl, ?_⟩
  rw [extractLoop_cons_err_rl_retry e1 _ page pages 0 he1 hr1 (by decide)]
  rw [extractLoop_cons_err_rl_retry e2 _ page pages 1 he2 hr2 (by decide)]
  rw [extractLoop_cons_err_rl_retry e3 _ page pages 2 he3 hr3 (by decide)]
  rw [extractLoop_cons_err_rl_retry e4 _ page pages 3 he4 hr4 (by decide)]
  rw [extractLoop_cons_err_rl_skip e5 _ page pages 4 he5 hr5 (by decide)]
  simp

/-- Witness for C4: five straight 429 responses on the first page of an
otherwise empty remainder. -/
theorem extract_retry_cap_skips_page_witness :
    MAX_RETRIES = 5 ∧
    extractLoop [.err "429", .err "429", .err "429", .err "429", .err "429"]
        1 [] 0 =
      ([.call 1, .backoff 1 1, .call 1, .backoff 1 2, .call 1, .backoff 1 3,
        .call 1, .backoff 1 4, .call 1, .backoff 1 5] ++
          (extractLoop [] 2 [] 0).1,
       (extractLoop [] 2 [] 0).2) :=
  extract_retry_cap_skips_page "429" "429" "429" "429" "429" [] 1 []
    (by decide) (by decide) (by decide) (by decide) (by decide)

/-- C5 counterexample: a backend error whose message indicates quota
exhaustion but contains none of the substrings the code actually matches
(`"429"`, `"rate limit"`, `"too many requests"`) is *not* classified as a
rate-limit signal: it falls to the catch-all branch, the page is skipped
immediately (no backoff event, no retry), refuting the claim that every
quota-exhaustion error triggers the retry path. -/
theorem quota_error_not_rate_limited :
    classify_error "API quota exhausted for this key" = ErrClass.other ∧
    extract_pdf_multipage
        [.err "API quota exhausted for this key", .ok (.strNotJson "A"),
         .err "requested page not found"] =
      ([.call 1, .call 2, .call 3, .writeFile "A"], .some_path) := by
  constructor <;> decide

/-- C5 (amended): every backend error whose `str(e)` contains `"429"`, or
whose lowercased message contains `"rate limit"` or `"too many requests"`
— and which the end-of-document patterns (checked first) do not match —
is classified as a rate-limit signal: the retry counter is incremented,
and while under the cap the loop sleeps a backoff and re-attempts the
same page with the same accumulated pages.  The backoff interval is the
exponential base `2 ^ retries` plus the worker-derived jitter plus the
random component, and the base makes it strictly increase with the retry
count. -/
theorem rate_limit_classified_and_retried (e : String)
    (rest : List BackendResult) (page : Nat) (pages : List String)
    (retries : Nat) (wj rand : ℚ)
    (he : is_end_of_doc_msg (py_lower e) = false)
    (hthrottle : strContains e "429" = true ∨
      strContains (py_lower e) "rate limit" = true ∨
      strContains (py_lower e) "too many requests" = true)
    (hcap : retries + 1 < MAX_RETRIES) :
    classify_error e = ErrClass.rateLimited ∧
    extractLoop (.err e :: rest) page pages retries =
      (.call page :: .backoff page (retries + 1) ::
        (extractLoop rest page pages (retries + 1)).1,
       (extractLoop rest page pages (retries + 1)).2) ∧
    backoff_time retries wj rand < backoff_time (retries + 1) wj rand := by
  have hr : is_rate_limit_err e = true := by
    unfold is_rate_limit_err
    rcases hthrottle with h | h | h <;> simp [h]
  refine ⟨(classify_error_rateLimited_iff e).2 ⟨he, hr⟩,
    extractLoop_cons_err_rl_retry e rest page pages retries he hr hcap, ?_⟩
  unfold backoff_time
  have hpos : (0:ℚ) < 2 ^ retries := by positivity
  have h2 : (2:ℚ) ^ (retries + 1) = 2 * 2 ^ retries := by ring
  linarith

/-- Witness for C5 (amended): a bare `"429"` message on the first attempt
of page 1, with worker jitter `1/2` and random draw `1/3`. -/
theorem rate_limit_classified_and_retried_witness :
    classify_error "429" = ErrClass.rateLimited ∧
    extractLoop [BackendResult.err "429"] 1 [] 0 =
      (.call 1 :: .backoff 1 1 :: (extractLoop [] 1 [] 1).1,
       (extractLoop [] 1 [] 1).2) ∧
    backoff_time 0 (1/2) (1/3) < backoff_time 1 (1/2) (1/3) :=
  rate_limit_classified_and_retried "429" [] 1 [] 0 (1/2) (1/3) (by decide)
    (Or.inl (by decide)) (by decide)

/-- C6: a backend error classified neither end-of-document nor rate-limit
skips exactly that one page immediately: the trace gains the single call
(no backoff sleep, no retry attempt), nothing is appended to the
accumulated pages, the page cursor advances by one, and extraction
continues with the next page of the same document. -/
theorem other_error_skips_single_page (e : String)
    (rest : List BackendResult) (page : Nat) (pages : List String)
    (retries : Nat) (h : classify_error e = ErrClass.other) :
    extractLoop (.err e :: rest) page pages retries =
      (.call page :: (extractLoop rest (page + 1) pages 0).1,
       (extractLoop rest (page + 1) pages 0).2) := by
  obtain ⟨he, hr⟩ := (classify_error_other_iff e).1 h
  exact extractLoop_cons_err_other e rest page pages retries he hr

/-- Witness for C6: an I/O failure message on page 1. -/
theorem other_error_skips_single_page_witness :
    classify_error "connection reset by peer" = ErrClass.other ∧
    extractLoop [BackendResult.err "connection reset by peer"] 1 [] 0 =
      (.call 1 :: (extractLoop [] 2 [] 0).1, (extractLoop [] 2 [] 0).2) :=
  ⟨by decide,
    other_error_skips_single_page "connection reset by peer" [] 1 [] 0
      (by decide)⟩

/-- C10: the end-of-document patterns are tested before the rate-limit
patterns, so an error whose lowercased message matches both (e.g. a page
out-of-range message that also carries a 429 status) is treated as
terminal end-of-document: the document is finalized on the spot — the
accumulated pages are written (or `None` returned when empty) — and no
backoff or retry is triggered (the trace beyond the call is only the
write; the remaining results are never consumed). -/
theorem eof_precedence_over_rate_limit (e : String)
    (rest : List BackendResult) (page : Nat) (pages : List String)
    (retries : Nat)
    (h1 : is_end_of_doc_msg (py_lower e) = true)
    (h2 : is_rate_limit_err e = true) :
    classify_error e = ErrClass.endOfDocument ∧
    extractLoop (.err e :: rest) page pages retries =
      (if pages = [] then ([.call page], .none_result)
       else ([.call page, .writeFile (join_pages pages)], .some_path)) := by
  refine ⟨by unfold classify_error; simp [h1], ?_⟩
  by_cases hp : pages = []
  · rw [hp, if_pos rfl]
    exact extractLoop_cons_err_eof_none e rest page retries h1
  · rw [if_neg hp]
    exact extractLoop_cons_err_eof_write e rest page pages retries h1 hp

/-- Witness for C10: `"page 7 out of range (HTTP 429)"` matches both an
end-of-document pattern and the rate-limit pattern, and finalizes the
document. -/
theorem eof_precedence_over_rate_limit_witness :
    is_end_of_doc_msg (py_lower "page 7 out of range (HTTP 429)") = true ∧
    is_rate_limit_err "page 7 out of range (HTTP 429)" = true ∧
    (classify_error "page 7 out of range (HTTP 429)" = ErrClass.endOfDocument ∧
      extractLoop [BackendResult.err "page 7 out of range (HTTP 429)"] 2 ["A"] 3 =
        (if ["A"] = ([] : List String) then ([.call 2], .none_result)
         else ([.call 2, .writeFile (join_pages ["A"])], .some_path))) :=
  ⟨by decide, by decide,
    eof_precedence_over_rate_limit "page 7 out of range (HTTP 429)" [] 2 ["A"] 3
      (by decide) (by decide)⟩

/-! ## Directory walker (`process_directory`, lines 143–173)

The extractor call on one document is external to the walker; it is
supplied as a function from file name to per-document outcome. -/

/-- What `extract_pdf_multipage(pdf, ...)` did for one file, as seen from
the `try` of lines 160–166: returned a path, returned `None`, or raised
(caught and logged as `FATAL ERROR`, batch continues). -/
inductive DocOutcome where
  | produced (path : String)
  | noFile
  | raised (msg : String)
deriving DecidableEq, Repr

/-- `dir_path.glob("*.pdf")` membership for an entry name: ends in
`".pdf"`, and pathlib's `*` does not match a leading dot. -/
def matches_pdf_glob (name : String) : Bool :=
  name.endsWith ".pdf" && !(name.startsWith ".")

/-- The worklist of line 149:
`sorted(dir_path.glob("*.pdf"), key=lambda p: p.name)` over the (flat,
non-recursive) directory listing `entries`. -/
def sorted_pdfs (entries : List String) : List String :=
  (entries.filter matches_pdf_glob).mergeSort

/-- The `for` loop of lines 159–171: strictly sequential; a produced path
is appended to `results` (lines 162–163), `None` contributes nothing, and
an exception from a document is caught at this level (lines 165–166)
without stopping the remaining documents. -/
def run_files : List String → (String → DocOutcome) → List String
  | [], _ => []
  | n :: rest, extract =>
      match extract n with
      | .produced p => p :: run_files rest extract
      | .noFile => run_files rest extract
      | .raised _ => run_files rest extract

/-- `process_directory`, lines 143–173 (the missing-directory and
no-PDFs early returns, lines 145–152, both yield `[]`, which coincides
with running the loop on an empty worklist). -/
def process_directory (entries : List String)
    (extract : String → DocOutcome) : List String :=
  run_files (sorted_pdfs entries) extract

/-- The path a document's outcome contributes to the returned list. -/
def produced_path : DocOutcome → Option String
  | .produced p => some p
  | .noFile => none
  | .raised _ => none

lemma run_files_eq_filterMap (l : List String) (extract : String → DocOutcome) :
    run_files l extract = l.filterMap fun n => produced_path (extract n) := by
  induction l with
  | nil => rfl
  | cons n rest ih =>
      cases h : extract n <;>
        simp [run_files, h, List.filterMap_cons, produced_path, ih]

/-- C8: `process_directory` processes exactly the `*.pdf` entries of the
(non-recursive) directory listing, in ascending lexical filename order,
strictly sequentially; a document whose processing raised contributes no
entry while every other document is still processed; the returned list is
exactly the output paths of the documents that produced a file, in
processing order.  The worklist is sorted and is a permutation of the
directory's PDF entries. -/
theorem process_directory_ordered_and_fault_tolerant
    (entries : List String) (extract : String → DocOutcome) :
    process_directory entries extract =
      (sorted_pdfs entries).filterMap (fun n => produced_path (extract n)) ∧
    List.Sorted (· ≤ ·) (sorted_pdfs entries) ∧
    (sorted_pdfs entries).Perm (entries.filter matches_pdf_glob) := by
  refine ⟨run_files_eq_filterMap _ _, ?_, ?_⟩
  · exact List.sorted_mergeSort' (entries.filter matches_pdf_glob)
  · exact List.mergeSort_perm _ _

/-! ## Credential resolution (`get_api_key_priority_order`, lines 176–192) -/

/-- Python truthiness of an optional string (`None` and `""` are falsy):
the guards `if provided_key`, `if conda_key`, `if regular_key`. -/
def truthy : Option String → Bool
  | none => false
  | some s => s != ""

/-- `provided_key.lower() in ['none', 'dummy', '']`, line 179. -/
def is_placeholder (k : String) : Bool :=
  py_lower k == "none" || py_lower k == "dummy" || py_lower k == ""

/-- The `SystemExit` message of line 192. -/
def no_api_key_msg : String :=
  "No API key found. Provide via: command line, conda env var (TYPHOON_OCR_API_KEY), or env var"

/-- `get_api_key_priority_order`, lines 176–192.  `provided` is the CLI
argument (`none` when absent), `env` is `os.getenv`.  `Except.error msg`
models `raise SystemExit(msg)`: a fatal error message and a non-zero
(status 1) process exit. -/
def get_api_key_priority_order (provided : Option String)
    (env : String → Option String) : Except String String :=
  if truthy provided && !is_placeholder (provided.getD "") then
    .ok (provided.getD "")
  else if truthy (env "TYPHOON_OCR_API_KEY") then
    .ok ((env "TYPHOON_OCR_API_KEY").getD "")
  else if truthy (env "OPENAI_API_KEY") then
    .ok ((env "OPENAI_API_KEY").getD "")
  else
    .error no_api_key_msg

/-- Modelled from the spec (amended C9): the CLI key when genuine —
non-empty and not a placeholder (`"none"`/`"dummy"`, case-insensitively);
otherwise `TYPHOON_OCR_API_KEY` when set non-empty; otherwise
`OPENAI_API_KEY` when set non-empty; otherwise no credential resolves. -/
def cli_genuine : Option String → Option String
  | none => none
  | some k => if k ≠ "" ∧ is_placeholder k = false then some k else none

/-- Modelled from the spec: an environment value counts only when the
variable is set to a non-empty string. -/
def env_nonempty : Option String → Option String
  | none => none
  | some k => if k ≠ "" then some k else none

/-- Modelled from the spec (amended C9): the resolution chain
CLI-if-genuine, else provider variable, else generic fallback. -/
def resolve_credential_spec (provided : Option String)
    (env : String → Option String) : Option String :=
  (cli_genuine provided).or
    ((env_nonempty (env "TYPHOON_OCR_API_KEY")).or
      (env_nonempty (env "OPENAI_API_KEY")))

/-- C9 counterexample: a key *was* supplied on the command line
(`"dummy"`), yet with the provider variable set the environment key is
used instead — the code filters out the placeholder values
`'none'`/`'dummy'`/`''` before consulting the environment, so the claimed
"command line first" priority does not hold for such a supplied key. -/
theorem cli_placeholder_key_not_used :
    get_api_key_priority_order (some "dummy")
        (fun v => if v = "TYPHOON_OCR_API_KEY" then some "envkey" else none) =
      Except.ok "envkey" ∧ "envkey" ≠ "dummy" :=
  ⟨by rfl, by decide⟩

/-- C9 (amended): the credential is resolved in priority order — the
command-line key first *unless it is empty or a placeholder
(`"none"`/`"dummy"`, case-insensitively), which is treated as absent* —
then the provider variable `TYPHOON_OCR_API_KEY` when set non-empty, then
the generic fallback `OPENAI_API_KEY` when set non-empty; whichever
resolves first is used, and when none resolves the process aborts with the
fatal `SystemExit` message and a non-zero exit status (`Except.error`). -/
theorem get_api_key_follows_spec_priority (provided : Option String)
    (env : String → Option String) :
    get_api_key_priority_order provided env =
      (match resolve_credential_spec provided env with
       | some k => Except.ok k
       | none => Except.error no_api_key_msg) := by
  unfold get_api_key_priority_order resolve_credential_spec cli_genuine
    env_nonempty truthy is_placeholder
  cases provided with
  | none =>
      cases hT : env "TYPHOON_OCR_API_KEY" with
      | none =>
          cases hO : env "OPENAI_API_KEY" with
          | none => simp [hT, hO]
          | some ko => by_cases hko : ko = "" <;> simp [hT, hO, hko]
      | some kt =>
          by_cases hkt : kt = ""
          · cases hO : env "OPENAI_API_KEY" with
            | none => simp [hT, hO, hkt]
            | some ko => by_cases hko : ko = "" <;> simp [hT, hO, hkt, hko]
          · simp [hT, hkt]
  | some k =>
      by_cases hk : k = ""
      · cases hT : env "TYPHOON_OCR_API_KEY" with
        | none =>
            cases hO : env "OPENAI_API_KEY" with
            | none => simp [hT, hO, hk]
            | some ko => by_cases hko : ko = "" <;> simp [hT, hO, hk, hko]
        | some kt =>
            by_cases hkt : kt = ""
            · cases hO : env "OPENAI_API_KEY" with
              | none => simp [hT, hO, hk, hkt]
              | some ko => by_cases hko : ko = "" <;> simp [hT, hO, hk, hkt, hko]
            · simp [hT, hk, hkt]
      · by_cases hph : (py_lower k == "none" || py_lower k == "dummy" ||
            py_lower k == "") = true
        · cases hT : env "TYPHOON_OCR_API_KEY" with
          | none =>
              cases hO : env "OPENAI_API_KEY" with
              | none => simp [hT, hO, hk, hph]
              | some ko => by_cases hko : ko = "" <;> simp [hT, hO, hk, hph, hko]
          | some kt =>
              by_cases hkt : kt = ""
              · cases hO : env "OPENAI_API_KEY" with
                | none => simp [hT, hO, hk, hph, hkt]
                | some ko => by_cases hko : ko = "" <;> simp [hT, hO, hk, hph, hkt, hko]
              · simp [hT, hk, hph, hkt]
        · rw [Bool.not_eq_true] at hph
          simp [hk, hph]

end TyphoonExtractor
